import Mathlib

/-!
Shallow embedding of the monitoring/analysis pipeline of the kube-tui-aid
repository.

Conventions of the embedding:
  - JavaScript numbers are modelled as exact rationals.
  - Database rows are Lean structures holding the columns that the modelled
    functions read or write; nullable columns are Option-typed (NULL = none).
  - A table is a list of rows, in insertion order; an insert appends, an
    upsert replaces the row with the same conflict key or appends.
  - The supabase single() call yields a non-null result exactly when the
    filter matches exactly one row; with zero or several matches it yields
    null, which the callers treat as absence.
  - Network calls to the language-model oracle are modelled as a function
    argument returning Option: none stands for a failed call or unparsable
    output (the catch branch of the source), some r for a parsed response r.
  - Timestamps are epoch milliseconds as naturals.
-/

namespace KubeTuiAid

/-- A row of the cluster_metrics table, restricted to the columns read by
calculateComponentScore and checkMetricThresholds
(supabase/functions/prometheus-monitor/index.ts). -/
structure MetricRow where
  metric_type : String
  value : ℚ
  node_name : Option String
  resource_name : Option String
deriving Repr, DecidableEq

/-- A row of the monitoring_alerts table, restricted to the columns written
by checkMetricThresholds; resolved defaults to false on insert
(migration 20250807173654). The message column is derived presentation text
and is not modelled. -/
structure AlertRow where
  cluster_id : String
  alert_type : String
  severity : String
  threshold_value : ℚ
  current_value : ℚ
  node_name : Option String
  resource_name : Option String
  resolved : Bool
deriving Repr, DecidableEq

/-- A warning/critical threshold pair, as in the thresholds literal of
checkMetricThresholds. -/
structure Threshold where
  critical : ℚ
  warning : ℚ
deriving Repr, DecidableEq

/-- The thresholds table of checkMetricThresholds
(prometheus-monitor/index.ts, lines 327-331). -/
def thresholds (metric_type : String) : Option Threshold :=
  if metric_type == "cpu" then some ⟨90, 80⟩
  else if metric_type == "memory" then some ⟨95, 85⟩
  else if metric_type == "disk" then some ⟨95, 90⟩
  else none

/-- The severity determination of checkMetricThresholds
(prometheus-monitor/index.ts, lines 339-348): critical is compared first,
then warning, both with >=; neither met yields no severity. -/
def severityFor (threshold : Threshold) (value : ℚ) : Option (String × ℚ) :=
  if value ≥ threshold.critical then some ("critical", threshold.critical)
  else if value ≥ threshold.warning then some ("warning", threshold.warning)
  else none

/-- One iteration of the metric loop of checkMetricThresholds
(prometheus-monitor/index.ts, lines 335-379). The state is the
monitoring_alerts table together with the alertsCreated counter.
The existence check queries node_name = (metric.node_name || two quotes),
i.e. the empty string when the sample has no node_name, while the insert
stores the raw metric.node_name; single() yields a row exactly when the
filter matches one row. -/
def processMetric (cluster_id : String) (st : List AlertRow × Nat)
    (metric : MetricRow) : List AlertRow × Nat :=
  match thresholds metric.metric_type with
  | none => st
  | some threshold =>
    match severityFor threshold metric.value with
    | none => st
    | some (severity, thresholdValue) =>
      let queriedNodeName := metric.node_name.getD ""
      let matching := st.1.filter (fun a =>
        a.cluster_id == cluster_id &&
        a.alert_type == (metric.metric_type ++ "_pressure") &&
        a.node_name == some queriedNodeName &&
        a.resolved == false)
      if matching.length == 1 then st
      else
        (st.1 ++ [{ cluster_id := cluster_id,
                    alert_type := metric.metric_type ++ "_pressure",
                    severity := severity,
                    threshold_value := thresholdValue,
                    current_value := metric.value,
                    node_name := metric.node_name,
                    resource_name := metric.resource_name,
                    resolved := false }],
         st.2 + 1)

/-- checkMetricThresholds (prometheus-monitor/index.ts, lines 313-386):
iterates the recent metric samples in query order over the alerts table,
returning the new table and the alertsCreated count. -/
def checkMetricThresholds (cluster_id : String) (metrics : List MetricRow)
    (alerts : List AlertRow) : List AlertRow × Nat :=
  if metrics.isEmpty then (alerts, 0)
  else metrics.foldl (processMetric cluster_id) (alerts, 0)

/-- The average used by calculateComponentScore: sum of values over count. -/
def avgValue (values : List ℚ) : ℚ :=
  values.sum / (values.length : ℚ)

/-- calculateComponentScore (prometheus-monitor/index.ts, lines 389-401):
filter samples of the type, 100 when none, otherwise branch on
avg >= alertThreshold. -/
def calculateComponentScore (metrics : List MetricRow) (type : String)
    (alertThreshold : ℚ) : ℚ :=
  let typeMetrics := metrics.filter (fun m => m.metric_type == type)
  if typeMetrics.length == 0 then 100
  else
    let avg := avgValue (typeMetrics.map (fun m => m.value))
    if avg ≥ alertThreshold then max 0 (100 - (avg - alertThreshold) * 10)
    else max 0 (100 - (avg / alertThreshold) * 50)

/-- The component-score formula as the spec states it, for comparison with
the source definition: average the values, then if avg >= threshold the
score is max(0, 100 - (avg - threshold) * 10), else
max(0, 100 - (avg/threshold) * 50). -/
def specComponentScore (avg threshold : ℚ) : ℚ :=
  if avg ≥ threshold then max 0 (100 - (avg - threshold) * 10)
  else max 0 (100 - (avg / threshold) * 50)

/-- A row of the pod_health table, restricted to the columns read by the
health scorer and the trend analyzer. -/
structure PodHealthRow where
  pod_name : String
  namespace_ : String
  restart_count : Nat
  status : String
  updated_at : Nat
deriving Repr, DecidableEq

/-- The pod-health score of calculateClusterHealthScore
(prometheus-monitor/index.ts, lines 260-267): the query result may be null
(none); totalPods and healthyPods default to 0, and the score is
healthy/total * 100 when totalPods > 0, else 100. -/
def podHealthScoreOf (podHealth : Option (List PodHealthRow)) : ℚ :=
  let totalPods : Nat := (podHealth.map List.length).getD 0
  let healthyPods : Nat :=
    (podHealth.map (fun l => (l.filter (fun p => p.status == "Running")).length)).getD 0
  if totalPods > 0 then ((healthyPods : ℚ) / (totalPods : ℚ)) * 100 else 100

/-- A row of the cluster_events table, restricted to the columns read by
performEventCorrelation (intelligent-analysis function). created_at is in
epoch milliseconds. -/
structure EventRow where
  id : Nat
  created_at : Nat
  name : String
  kind : String
  namespace_ : String
deriving Repr, DecidableEq

/-- The parsed JSON response of the correlation oracle. -/
structure CorrOracleResult where
  isCorrelated : Bool
  confidence : ℚ
  rootCause : String
  type : String
deriving Repr, DecidableEq

/-- The value analyzeEventCorrelationWithAI returns to its caller. -/
structure CorrelationAnalysis where
  confidence : ℚ
  rootCause : String
  type : String
deriving Repr, DecidableEq

/-- analyzeEventCorrelationWithAI (intelligent-analysis, lines 286-348):
on a parsed response, confidence is the response confidence when
isCorrelated and 0 otherwise; a failed call or unparsable output (none)
is caught and yields confidence 0. -/
def analyzeEventCorrelationWithAI (response : Option CorrOracleResult) :
    CorrelationAnalysis :=
  match response with
  | none => { confidence := 0, rootCause := "Analysis failed", type := "unknown" }
  | some r =>
    { confidence := if r.isCorrelated then r.confidence else 0,
      rootCause := r.rootCause, type := r.type }

/-- A row of the event_correlations table as written by
performEventCorrelation; affected_resources lists (name, kind, namespace)
for each event of the window. -/
structure CorrelationRow where
  cluster_id : String
  correlation_id : String
  primary_event_id : Nat
  related_event_ids : List Nat
  root_cause_analysis : String
  confidence_score : ℚ
  correlation_type : String
  affected_resources : List (String × String × String)
deriving Repr, DecidableEq

/-- A time window of groupEventsByTimeWindows. -/
structure Window where
  startTime : Nat
  endTime : Nat
  events : List EventRow
deriving Repr, DecidableEq

/-- Helper for groupEventsByTimeWindows: append the event to the first
window whose [startTime, endTime] range contains its timestamp (the
source comparison is inclusive on both ends), or report none. -/
def pushIntoWindow (t : Nat) (event : EventRow) :
    List Window → Option (List Window)
  | [] => none
  | w :: ws =>
    if w.startTime ≤ t && t ≤ w.endTime then
      some ({ w with events := w.events ++ [event] } :: ws)
    else
      (pushIntoWindow t event ws).map (w :: ·)

/-- groupEventsByTimeWindows (intelligent-analysis, lines 466-491):
for each event in order, place it into an existing containing window or
open a new window aligned to floor(t / windowMs) * windowMs of width
windowMs. -/
def groupEventsByTimeWindows (events : List EventRow) (windowMinutes : Nat) :
    List Window :=
  let windowMs := windowMinutes * 60 * 1000
  events.foldl (fun windows event =>
    let t := event.created_at
    match pushIntoWindow t event windows with
    | some ws => ws
    | none =>
      windows ++ [{ startTime := t / windowMs * windowMs,
                    endTime := t / windowMs * windowMs + windowMs,
                    events := [event] }]) []

/-- The upsert of performEventCorrelation with conflict key
(cluster_id, correlation_id). -/
def upsertCorrelation (store : List CorrelationRow) (row : CorrelationRow) :
    List CorrelationRow :=
  if store.any (fun r =>
      r.cluster_id == row.cluster_id && r.correlation_id == row.correlation_id) then
    store.map (fun r =>
      if r.cluster_id == row.cluster_id && r.correlation_id == row.correlation_id
      then row else r)
  else store ++ [row]

/-- One iteration of the window loop of performEventCorrelation
(intelligent-analysis, lines 134-167): windows with fewer than 2 events
are skipped; otherwise the oracle-scored confidence must be strictly
greater than 0.7 for a correlation row to be upserted. The fresh
correlation id is supplied by idGen applied to the running count (the
source uses a timestamp plus a random suffix). -/
def processWindow (oracle : List EventRow → Option CorrOracleResult)
    (idGen : Nat → String) (cluster_id : String)
    (st : List CorrelationRow × Nat) (w : Window) : List CorrelationRow × Nat :=
  match w.events with
  | [] => st
  | e0 :: rest =>
    if (e0 :: rest).length < 2 then st
    else
      let analysis := analyzeEventCorrelationWithAI (oracle (e0 :: rest))
      if analysis.confidence > 7/10 then
        (upsertCorrelation st.1
          { cluster_id := cluster_id,
            correlation_id := idGen st.2,
            primary_event_id := e0.id,
            related_event_ids := rest.map (fun e => e.id),
            root_cause_analysis := analysis.rootCause,
            confidence_score := analysis.confidence,
            correlation_type := analysis.type,
            affected_resources :=
              (e0 :: rest).map (fun e => (e.name, e.kind, e.namespace_)) },
         st.2 + 1)
      else st

/-- performEventCorrelation (intelligent-analysis, lines 115-174):
group the recent events into 5-minute windows and process each window;
an empty or failed query returns zero correlations. -/
def performEventCorrelation (oracle : List EventRow → Option CorrOracleResult)
    (idGen : Nat → String) (cluster_id : String) (events : List EventRow)
    (store : List CorrelationRow) : List CorrelationRow × Nat :=
  if events.isEmpty then (store, 0)
  else
    (groupEventsByTimeWindows events 5).foldl
      (processWindow oracle idGen cluster_id) (store, 0)

/-- The parsed JSON response of the trend oracle, also the value
analyzePodTrendWithAI returns. -/
structure TrendOracleResult where
  significance : ℚ
  direction : String
  score : ℚ
  analysis : String
deriving Repr, DecidableEq

/-- analyzePodTrendWithAI (intelligent-analysis, lines 350-404): the parsed
response is returned as-is; a failed call or unparsable output (none) is
caught and yields significance 0, direction stable, score 0. -/
def analyzePodTrendWithAI (response : Option TrendOracleResult) :
    TrendOracleResult :=
  match response with
  | none =>
    { significance := 0, direction := "stable", score := 0,
      analysis := "Analysis failed" }
  | some r => r

/-- A row of the pod_restart_trends table as written by
analyzePodRestartTrends; time_window is the current hour bucket in epoch
milliseconds. -/
structure PodRestartTrendRow where
  cluster_id : String
  pod_name : String
  namespace_ : String
  time_window : Nat
  restart_count : Nat
  avg_restart_interval : String
  trend_direction : String
  trend_score : ℚ
deriving Repr, DecidableEq

/-- JavaScript Math.round on the exact rational value: floor(x + 1/2). -/
def jsRound (q : ℚ) : ℤ := ⌊q + 1/2⌋

/-- calculateAverageRestartInterval (intelligent-analysis, lines 507-521):
mean of the successive updated_at deltas, rounded to whole minutes and
rendered as text. -/
def calculateAverageRestartInterval (podData : List PodHealthRow) : String :=
  if podData.length < 2 then "0 seconds"
  else
    let intervals := (podData.zip podData.tail).map
      (fun pair => (pair.2.updated_at : ℚ) - (pair.1.updated_at : ℚ))
    let avgMs := intervals.sum / (intervals.length : ℚ)
    let avgMinutes := jsRound (avgMs / (1000 * 60))
    toString avgMinutes ++ " minutes"

/-- groupBy (intelligent-analysis, lines 493-505): a JavaScript Map built
by insertion order, modelled as an association list with unique keys. -/
def groupBy (array : List PodHealthRow) (keyFunc : PodHealthRow → String) :
    List (String × List PodHealthRow) :=
  array.foldl (fun groups item =>
    let key := keyFunc item
    if groups.any (fun g => g.1 == key) then
      groups.map (fun g => if g.1 == key then (g.1, g.2 ++ [item]) else g)
    else groups ++ [(key, [item])]) []

/-- JavaScript Object.entries applied to a Map object, as
analyzePodRestartTrends does at line 194: a Map stores its entries in
internal slots, not as own enumerable string-keyed properties, so
Object.entries of any Map is the empty array. -/
def objectEntriesOfMap (_groups : List (String × List PodHealthRow)) :
    List (String × List PodHealthRow) := []

/-- The upsert of analyzePodRestartTrends with conflict key
(cluster_id, pod_name, namespace, time_window). -/
def upsertTrend (trends : List PodRestartTrendRow) (row : PodRestartTrendRow) :
    List PodRestartTrendRow :=
  if trends.any (fun t =>
      t.cluster_id == row.cluster_id && t.pod_name == row.pod_name &&
      t.namespace_ == row.namespace_ && t.time_window == row.time_window) then
    trends.map (fun t =>
      if t.cluster_id == row.cluster_id && t.pod_name == row.pod_name &&
         t.namespace_ == row.namespace_ && t.time_window == row.time_window
      then row else t)
  else trends ++ [row]

/-- One iteration of the group loop of analyzePodRestartTrends
(intelligent-analysis, lines 194-220): groups of fewer than 2 samples are
skipped; otherwise an oracle significance strictly greater than 0.5 upserts
a trend row for the current hour whose restart_count is the last sample's
count. -/
def processPodGroup (oracle : List PodHealthRow → Option TrendOracleResult)
    (now : Nat) (cluster_id : String) (st : List PodRestartTrendRow × Nat)
    (entry : String × List PodHealthRow) : List PodRestartTrendRow × Nat :=
  match entry.2 with
  | [] => st
  | p0 :: rest =>
    if (p0 :: rest).length < 2 then st
    else
      let podData := p0 :: rest
      let trendAnalysis := analyzePodTrendWithAI (oracle podData)
      if trendAnalysis.significance > 1/2 then
        let currentHour := now / 3600000 * 3600000
        (upsertTrend st.1
          { cluster_id := cluster_id,
            pod_name := p0.pod_name,
            namespace_ := p0.namespace_,
            time_window := currentHour,
            restart_count := (podData.getLastD p0).restart_count,
            avg_restart_interval := calculateAverageRestartInterval podData,
            trend_direction := trendAnalysis.direction,
            trend_score := trendAnalysis.score },
         st.2 + 1)
      else st

/-- analyzePodRestartTrends (intelligent-analysis, lines 176-227): group the
24-hour pod-health history by pod_name and namespace with groupBy (a Map),
then iterate Object.entries of that Map — which is empty for a Map — and
process each entry; returns the trends table and the trendsCreated count. -/
def analyzePodRestartTrends
    (oracle : List PodHealthRow → Option TrendOracleResult) (now : Nat)
    (cluster_id : String) (podHealthData : List PodHealthRow)
    (trends : List PodRestartTrendRow) : List PodRestartTrendRow × Nat :=
  if podHealthData.isEmpty then (trends, 0)
  else
    let podGroups := groupBy podHealthData
      (fun pod => pod.pod_name ++ "_" ++ pod.namespace_)
    (objectEntriesOfMap podGroups).foldl
      (processPodGroup oracle now cluster_id) (trends, 0)

/-- A row of the smart_alerts table, restricted to the columns read by
generateIntelligentSuggestions; the remaining columns only feed the oracle
prompt, which the oracle argument receives through the whole row. -/
structure SmartAlertRow where
  id : Nat
  alert_type : String
  severity : String
  resource_name : String
  namespace_ : Option String
  description : String
  is_resolved : Bool
deriving Repr, DecidableEq

/-- One suggestion of the parsed JSON array returned by the suggestion
oracle. -/
structure SuggestionSpec where
  type : String
  priority : Nat
  title : String
  description : String
  actionSteps : List String
  estimatedImpact : String
  difficulty : String
  confidence : ℚ
deriving Repr, DecidableEq

/-- A row of the intelligent_suggestions table as written by
generateIntelligentSuggestions. -/
structure SuggestionRow where
  alert_id : Nat
  suggestion_type : String
  priority : Nat
  title : String
  description : String
  action_steps : List String
  estimated_impact : String
  implementation_difficulty : String
  ai_confidence : ℚ
deriving Repr, DecidableEq

/-- generateSuggestionsWithAI (intelligent-analysis, lines 406-463): the
parsed response array is returned as-is; a failed call or unparsable output
(none) is caught and yields the empty list. -/
def generateSuggestionsWithAI (response : Option (List SuggestionSpec)) :
    List SuggestionSpec :=
  match response with
  | none => []
  | some l => l

/-- The insert row built from one oracle suggestion for an alert
(intelligent-analysis, lines 259-272). -/
def suggestionRowOf (alert_id : Nat) (s : SuggestionSpec) : SuggestionRow :=
  { alert_id := alert_id,
    suggestion_type := s.type,
    priority := s.priority,
    title := s.title,
    description := s.description,
    action_steps := s.actionSteps,
    estimated_impact := s.estimatedImpact,
    implementation_difficulty := s.difficulty,
    ai_confidence := s.confidence }

/-- The result of a suggestion pass: the intelligent_suggestions table, the
suggestionsCreated count, and the ids of the alerts for which the oracle
was invoked. -/
structure SuggestionPassResult where
  store : List SuggestionRow
  created : Nat
  invoked : List Nat
deriving Repr, DecidableEq

/-- One iteration of the alert loop of generateIntelligentSuggestions
(intelligent-analysis, lines 245-276): when any suggestion row already
exists for the alert the iteration does nothing (the oracle is not
invoked); otherwise the oracle is invoked and each returned suggestion is
inserted. -/
def processAlert (oracle : SmartAlertRow → Option (List SuggestionSpec))
    (st : SuggestionPassResult) (alert : SmartAlertRow) : SuggestionPassResult :=
  let existingSuggestions := st.store.filter (fun s => s.alert_id == alert.id)
  if existingSuggestions.length > 0 then st
  else
    let suggestions := generateSuggestionsWithAI (oracle alert)
    { store := st.store ++ suggestions.map (suggestionRowOf alert.id),
      created := st.created + suggestions.length,
      invoked := st.invoked ++ [alert.id] }

/-- generateIntelligentSuggestions (intelligent-analysis, lines 229-283):
the query keeps only unresolved alerts of the cluster; each is processed in
turn against the suggestions table. -/
def generateIntelligentSuggestions
    (oracle : SmartAlertRow → Option (List SuggestionSpec))
    (alerts : List SmartAlertRow) (store : List SuggestionRow) :
    SuggestionPassResult :=
  let unresolved := alerts.filter (fun a => a.is_resolved == false)
  if unresolved.isEmpty then { store := store, created := 0, invoked := [] }
  else unresolved.foldl (processAlert oracle)
    { store := store, created := 0, invoked := [] }

/-- A row of the slack_webhooks table, restricted to the columns the
severity filter reads (slack-integration serve handler). The rows handed to
the filter were already restricted to the owning user and enabled = true by
the query. -/
structure SlackWebhook where
  id : Nat
  cluster_id : Option String
deriving Repr, DecidableEq

/-- A row of the notification_preferences table, restricted to the columns
the severity filter reads; the query already restricted to the user,
notification_type slack and enabled = true. -/
structure NotificationPreference where
  cluster_id : Option String
  severity_threshold : String
deriving Repr, DecidableEq

/-- The severity scale of the slack-integration filter. -/
def severityLevels : List String := ["low", "medium", "high", "critical"]

/-- JavaScript Array.prototype.indexOf on a string array: the index of the
first occurrence, or -1 when absent. -/
def jsIndexOf (xs : List String) (s : String) : ℤ :=
  match xs.findIdx? (fun x => x == s) with
  | some i => (i : ℤ)
  | none => -1

/-- The preference lookup of the filter: the first preference whose
cluster_id is null or equals the webhook's cluster_id. -/
def findUserPref (preferences : List NotificationPreference)
    (webhook : SlackWebhook) : Option NotificationPreference :=
  preferences.find? (fun p => p.cluster_id.isNone || p.cluster_id == webhook.cluster_id)

/-- The per-webhook severity predicate of the enabledWebhooks filter
(slack-integration, lines 932-945): no matching preference means the event
is sent; otherwise the event passes iff its severity index is at least the
threshold index in the low < medium < high < critical scale. -/
def webhookPasses (preferences : List NotificationPreference)
    (severity : String) (webhook : SlackWebhook) : Bool :=
  match findUserPref preferences webhook with
  | none => true
  | some userPref =>
    jsIndexOf severityLevels severity ≥
      jsIndexOf severityLevels userPref.severity_threshold

/-- The enabledWebhooks filter of the slack-integration serve handler. -/
def enabledWebhooks (webhooks : List SlackWebhook)
    (preferences : List NotificationPreference) (severity : String) :
    List SlackWebhook :=
  webhooks.filter (webhookPasses preferences severity)

/-! Concrete inputs used by the theorems below. -/

/-- A cpu sample at 95 percent with no node_name (NULL label set). -/
def mNullC1 : MetricRow :=
  { metric_type := "cpu", value := 95, node_name := none, resource_name := none }

/-- Two events of one 5-minute bucket (timestamps 0 and 60000 ms). -/
def e1C4 : EventRow :=
  { id := 1, created_at := 0, name := "web-1", kind := "Pod", namespace_ := "default" }

def e2C4 : EventRow :=
  { id := 2, created_at := 60000, name := "web-2", kind := "Pod", namespace_ := "default" }

/-- A correlation oracle answering with confidence exactly 0.70. -/
def oracleConf070 : List EventRow → Option CorrOracleResult := fun _ =>
  some { isCorrelated := true, confidence := 7/10, rootCause := "rc", type := "cascade" }

/-- A correlation oracle answering with confidence 0.71. -/
def oracleConf071 : List EventRow → Option CorrOracleResult := fun _ =>
  some { isCorrelated := true, confidence := 71/100, rootCause := "rc", type := "cascade" }

/-- A correlation oracle answering with full confidence. -/
def oracleConf1 : List EventRow → Option CorrOracleResult := fun _ =>
  some { isCorrelated := true, confidence := 1, rootCause := "rc", type := "cascade" }

/-- A deterministic stand-in for the correlation id generator. -/
def idGen0 : Nat → String := fun n => "corr_" ++ toString n

/-- Two pod-health samples of the same pod within 24 hours. -/
def podAC3 : PodHealthRow :=
  { pod_name := "web", namespace_ := "default", restart_count := 3,
    status := "Running", updated_at := 0 }

def podBC3 : PodHealthRow :=
  { pod_name := "web", namespace_ := "default", restart_count := 7,
    status := "Running", updated_at := 600000 }

/-- A trend oracle answering with full significance. -/
def oracleTrendSure : List PodHealthRow → Option TrendOracleResult := fun _ =>
  some { significance := 1, direction := "increasing", score := 1, analysis := "a" }

/-- An unresolved smart alert and an existing suggestion row for it. -/
def alertC7 : SmartAlertRow :=
  { id := 1, alert_type := "crash_loop", severity := "high",
    resource_name := "web", namespace_ := some "default",
    description := "restarting", is_resolved := false }

def suggRowC7 : SuggestionRow :=
  { alert_id := 1, suggestion_type := "immediate", priority := 1,
    title := "restart", description := "d", action_steps := ["s1"],
    estimated_impact := "high", implementation_difficulty := "easy",
    ai_confidence := 9/10 }

/-- A suggestion oracle that always returns one suggestion. -/
def oracleSuggOne : SmartAlertRow → Option (List SuggestionSpec) := fun _ =>
  some [{ type := "immediate", priority := 1, title := "t", description := "d",
          actionSteps := ["s1"], estimatedImpact := "high",
          difficulty := "easy", confidence := 9/10 }]

/-- A webhook with no cluster restriction, and a preference with
severity_threshold high. -/
def whC8 : SlackWebhook := { id := 1, cluster_id := none }

def prefHighC8 : NotificationPreference :=
  { cluster_id := none, severity_threshold := "high" }

/-- A cpu sample of a given value with no labels, for the score theorems. -/
def cpuSample (v : ℚ) : MetricRow :=
  { metric_type := "cpu", value := v, node_name := none, resource_name := none }

/-- A pod-health row with Running status and one with Failed status. -/
def podRunC6 : PodHealthRow :=
  { pod_name := "a", namespace_ := "default", restart_count := 0,
    status := "Running", updated_at := 0 }

def podFailC6 : PodHealthRow :=
  { pod_name := "b", namespace_ := "default", restart_count := 2,
    status := "Failed", updated_at := 0 }

/-! Theorems. -/

/-- C1: the dedup check of checkMetricThresholds compares node_name against
metric.node_name or the empty string, while the insert stores the raw
node_name; for a sample with no node_name the stored NULL never matches the
queried empty string, so re-submitting the same violating sample while an
unresolved alert for the (cluster, type, NULL-node) triple exists creates a
second unresolved alert row: after two passes over the same critical cpu
sample, two unresolved cpu_pressure rows with node_name NULL exist. -/
theorem checkMetricThresholds_null_node_duplicates :
    ((checkMetricThresholds "c1" [mNullC1]
        (checkMetricThresholds "c1" [mNullC1] []).1).1.filter (fun a =>
          a.cluster_id == "c1" && a.alert_type == "cpu_pressure" &&
          a.node_name == (none : Option String) && a.resolved == false)).length
      = 2 := by
  decide

/-- C2 counterexample: with a single cpu sample of value 80 and threshold
80, calculateComponentScore takes the avg >= threshold branch and returns
100, not the 50 the claim states for this boundary input. -/
theorem componentScore_at_threshold_is_100 :
    calculateComponentScore [cpuSample 80] "cpu" 80 = 100 ∧
      calculateComponentScore [cpuSample 80] "cpu" 80 ≠ 50 := by
  constructor
  · norm_num [calculateComponentScore, avgValue, cpuSample]
  · norm_num [calculateComponentScore, avgValue, cpuSample]

/-- C2 amended: for a nonempty sample set of the requested type,
calculateComponentScore averages the values and branches on
avg >= threshold exactly as the spec formula specComponentScore does;
avg 79.9 with threshold 80 gives 801/16 = 50.0625, avg 80.1 gives 99, and
the boundary avg 80 takes the avg >= threshold branch, giving 100. -/
theorem componentScore_matches_spec_formula :
    (∀ (metrics : List MetricRow) (type : String) (alertThreshold : ℚ),
        metrics.filter (fun m => m.metric_type == type) ≠ [] →
        calculateComponentScore metrics type alertThreshold =
          specComponentScore
            (avgValue ((metrics.filter (fun m => m.metric_type == type)).map
              (fun m => m.value))) alertThreshold) ∧
      calculateComponentScore [cpuSample (799/10)] "cpu" 80 = 801/16 ∧
      calculateComponentScore [cpuSample (801/10)] "cpu" 80 = 99 ∧
      calculateComponentScore [cpuSample 80] "cpu" 80 = 100 := by
  refine ⟨?_, ?_, ?_, ?_⟩
  · intro metrics type alertThreshold h
    have hne : ((metrics.filter (fun m => m.metric_type == type)).length == 0) = false := by
      simp only [beq_eq_false_iff_ne, ne_eq, List.length_eq_zero]
      exact h
    simp [calculateComponentScore, specComponentScore, hne]
  · norm_num [calculateComponentScore, avgValue, cpuSample]
  · norm_num [calculateComponentScore, avgValue, cpuSample]
  · norm_num [calculateComponentScore, avgValue, cpuSample]

/-- C2 witness: the general branch characterization applied to a single
cpu sample of value 95 against threshold 80. -/
theorem componentScore_matches_spec_formula_witness :
    calculateComponentScore [cpuSample 95] "cpu" 80 =
      specComponentScore
        (avgValue ((([cpuSample 95]).filter
          (fun m => m.metric_type == "cpu")).map (fun m => m.value))) 80 :=
  componentScore_matches_spec_formula.1 _ _ _ (by simp [cpuSample])

/-- C10: when no sample of the requested metric type exists,
calculateComponentScore returns exactly 100. -/
theorem componentScore_no_samples_is_100 :
    ∀ (metrics : List MetricRow) (type : String) (alertThreshold : ℚ),
      metrics.filter (fun m => m.metric_type == type) = [] →
      calculateComponentScore metrics type alertThreshold = 100 := by
  intro metrics type alertThreshold h
  simp [calculateComponentScore, h]

/-- C10 witness: a memory-only sample set scored for the disk dimension. -/
theorem componentScore_no_samples_is_100_witness :
    calculateComponentScore
        [{ metric_type := "memory", value := 50, node_name := none,
           resource_name := none }] "disk" 90 = 100 :=
  componentScore_no_samples_is_100 _ _ _ (by decide)

/-- C5: for every metric type with a configured threshold pair, a value at
or above the critical threshold is assigned severity critical (the critical
comparison precedes the warning one), and a value below both thresholds
yields no severity, hence processMetric leaves the alerts table and count
unchanged for it. -/
theorem critical_checked_before_warning :
    (∀ (t : String) (th : Threshold) (v : ℚ), thresholds t = some th →
        (v ≥ th.critical → severityFor th v = some ("critical", th.critical)) ∧
        (v < th.critical → v < th.warning → severityFor th v = none)) ∧
      ∀ (c : String) (st : List AlertRow × Nat) (m : MetricRow) (th : Threshold),
        thresholds m.metric_type = some th →
        m.value < th.critical → m.value < th.warning →
        processMetric c st m = st := by
  constructor
  · intro t th v _
    constructor
    · intro hge
      simp [severityFor, hge]
    · intro h1 h2
      simp [severityFor, not_le.mpr h1, not_le.mpr h2]
  · intro c st m th hth h1 h2
    simp [processMetric, hth, severityFor, not_le.mpr h1, not_le.mpr h2]

/-- C5 witness: cpu has configured thresholds (90 critical, 80 warning); a
value of 95 is assigned critical, a value of 70 is assigned nothing, and
processMetric ignores a cpu sample of 70. -/
theorem critical_checked_before_warning_witness :
    severityFor ⟨90, 80⟩ 95 = some ("critical", 90) ∧
      severityFor ⟨90, 80⟩ 70 = none ∧
      processMetric "c1" ([], 0) (cpuSample 70) = ([], 0) := by
  refine ⟨?_, ?_, ?_⟩
  · exact ((critical_checked_before_warning.1 "cpu" ⟨90, 80⟩ 95 rfl).1 (by norm_num))
  · exact ((critical_checked_before_warning.1 "cpu" ⟨90, 80⟩ 70 rfl).2
      (by norm_num) (by norm_num))
  · exact (critical_checked_before_warning.2 "c1" ([], 0) (cpuSample 70) ⟨90, 80⟩
      rfl (by norm_num [cpuSample]) (by norm_num [cpuSample]))

/-- C6: the pod-health score is healthy/total * 100 for a nonempty pod set,
and exactly 100 when the cluster has zero pods (an empty result or a null
query result), not 0 and not an error. -/
theorem podHealthScore_formula_and_zero_pods :
    (∀ pods : List PodHealthRow, pods ≠ [] →
        podHealthScoreOf (some pods) =
          (((pods.filter (fun p => p.status == "Running")).length : ℚ) /
            (pods.length : ℚ)) * 100) ∧
      podHealthScoreOf (some []) = 100 ∧
      podHealthScoreOf none = 100 := by
  refine ⟨?_, rfl, rfl⟩
  intro pods h
  have hpos : 0 < pods.length := List.length_pos.mpr h
  simp [podHealthScoreOf, hpos]

/-- C6 witness: one Running and one Failed pod score 50. -/
theorem podHealthScore_formula_and_zero_pods_witness :
    podHealthScoreOf (some [podRunC6, podFailC6]) =
      ((([podRunC6, podFailC6].filter (fun p => p.status == "Running")).length : ℚ) /
        (([podRunC6, podFailC6] : List PodHealthRow).length : ℚ)) * 100 :=
  podHealthScore_formula_and_zero_pods.1 _ (by simp)

/-- Object.entries of the groupBy Map is empty, so the trend pass leaves
the trends table unchanged and reports zero trends, for every oracle and
input. -/
theorem analyzePodRestartTrends_eq (oracle : List PodHealthRow → Option TrendOracleResult)
    (now : Nat) (cluster : String) (podHealthData : List PodHealthRow)
    (trends : List PodRestartTrendRow) :
    analyzePodRestartTrends oracle now cluster podHealthData trends = (trends, 0) := by
  unfold analyzePodRestartTrends
  split
  · rfl
  · simp [objectEntriesOfMap]

/-- C3: the claim requires a PodRestartTrend upsert for every pod group
with at least 2 samples and oracle significance above 0.5, but
analyzePodRestartTrends iterates Object.entries of the groupBy Map, which
is empty, so no trend row is ever written: for every oracle and input the
trends table is unchanged with zero trends created, in particular for two
samples of one pod under a full-significance oracle. -/
theorem trend_pass_never_writes :
    (∀ (oracle : List PodHealthRow → Option TrendOracleResult) (now : Nat)
        (cluster : String) (podHealthData : List PodHealthRow)
        (trends : List PodRestartTrendRow),
        analyzePodRestartTrends oracle now cluster podHealthData trends = (trends, 0)) ∧
      analyzePodRestartTrends oracleTrendSure 3600000 "c1" [podAC3, podBC3] [] = ([], 0) :=
  ⟨fun oracle now cluster d t => analyzePodRestartTrends_eq oracle now cluster d t,
   analyzePodRestartTrends_eq oracleTrendSure 3600000 "c1" [podAC3, podBC3] []⟩

/-- C4: a window with exactly one event never yields a correlation row, for
every oracle; for every window with 2 or more events and every oracle, a
row is produced (the correlation count increments) iff the oracle-scored
confidence is strictly greater than 0.7, and otherwise the state is
unchanged; concretely, oracle confidence exactly 0.70 writes nothing, 0.71
writes one row, and a single event writes nothing even under a
full-confidence oracle. -/
theorem correlation_bucket_rules :
    (∀ (oracle : List EventRow → Option CorrOracleResult) (idGen : Nat → String)
        (cluster : String) (st : List CorrelationRow × Nat) (w : Window),
        w.events.length = 1 → processWindow oracle idGen cluster st w = st) ∧
      (∀ (oracle : List EventRow → Option CorrOracleResult) (idGen : Nat → String)
        (cluster : String) (st : List CorrelationRow × Nat) (w : Window),
        2 ≤ w.events.length →
        (((processWindow oracle idGen cluster st w).2 = st.2 + 1 ↔
            (analyzeEventCorrelationWithAI (oracle w.events)).confidence > 7/10) ∧
          (¬ (analyzeEventCorrelationWithAI (oracle w.events)).confidence > 7/10 →
            processWindow oracle idGen cluster st w = st))) ∧
      performEventCorrelation oracleConf070 idGen0 "c1" [e1C4, e2C4] [] = ([], 0) ∧
      (performEventCorrelation oracleConf071 idGen0 "c1" [e1C4, e2C4] []).2 = 1 ∧
      performEventCorrelation oracleConf1 idGen0 "c1" [e1C4] [] = ([], 0) := by
  refine ⟨?_, ?_, ?_, ?_, ?_⟩
  · intro oracle idGen cluster st w h
    obtain ⟨s, t, evs⟩ := w
    cases evs with
    | nil => simp at h
    | cons e0 rest =>
      cases rest with
      | nil => rfl
      | cons f r => simp at h
  · intro oracle idGen cluster st w h
    obtain ⟨s, t, evs⟩ := w
    cases evs with
    | nil => simp at h
    | cons e0 rest =>
      cases rest with
      | nil => simp at h
      | cons f r =>
        have hlen : ¬ ((e0 :: f :: r).length < 2) := by
          simp only [List.length_cons]
          omega
        by_cases hc :
            (analyzeEventCorrelationWithAI (oracle (e0 :: f :: r))).confidence > 7/10
        · constructor
          · simp only [processWindow]
            rw [if_neg hlen, if_pos hc]
            simp [hc]
          · intro hnc
            exact absurd hc hnc
        · constructor
          · simp only [processWindow]
            rw [if_neg hlen, if_neg hc]
            simp [hc]
          · intro _
            simp only [processWindow]
            rw [if_neg hlen, if_neg hc]
  · norm_num [performEventCorrelation, groupEventsByTimeWindows, pushIntoWindow,
      processWindow, analyzeEventCorrelationWithAI, oracleConf070, e1C4, e2C4]
  · norm_num [performEventCorrelation, groupEventsByTimeWindows, pushIntoWindow,
      processWindow, analyzeEventCorrelationWithAI, upsertCorrelation,
      oracleConf071, e1C4, e2C4]
  · norm_num [performEventCorrelation, groupEventsByTimeWindows, pushIntoWindow,
      processWindow, analyzeEventCorrelationWithAI, oracleConf1, e1C4]

/-- C4 witness: the one-event rule applied to a concrete window holding
only e1C4 under the full-confidence oracle, and the two-event cutoff rule
applied to a concrete window at confidences 0.70 (unchanged state) and
0.71 (count increments iff the cutoff is cleared). -/
theorem correlation_bucket_rules_witness :
    processWindow oracleConf1 idGen0 "c1" ([], 0)
        { startTime := 0, endTime := 300000, events := [e1C4] } = ([], 0) ∧
      processWindow oracleConf070 idGen0 "c1" ([], 0)
        { startTime := 0, endTime := 300000, events := [e1C4, e2C4] } = ([], 0) ∧
      ((processWindow oracleConf071 idGen0 "c1" ([], 0)
          { startTime := 0, endTime := 300000, events := [e1C4, e2C4] }).2 = 0 + 1 ↔
        (analyzeEventCorrelationWithAI (oracleConf071 [e1C4, e2C4])).confidence > 7/10) :=
  ⟨correlation_bucket_rules.1 oracleConf1 idGen0 "c1" ([], 0)
      { startTime := 0, endTime := 300000, events := [e1C4] } rfl,
   (correlation_bucket_rules.2.1 oracleConf070 idGen0 "c1" ([], 0)
      { startTime := 0, endTime := 300000, events := [e1C4, e2C4] } (by simp)).2
      (by norm_num [analyzeEventCorrelationWithAI, oracleConf070]),
   (correlation_bucket_rules.2.1 oracleConf071 idGen0 "c1" ([], 0)
      { startTime := 0, endTime := 300000, events := [e1C4, e2C4] } (by simp)).1⟩

/-- A failing correlation oracle is scored at confidence 0, which never
clears the 0.7 cutoff, so each window leaves the state unchanged. -/
theorem processWindow_oracle_none (idGen : Nat → String) (cluster : String)
    (st : List CorrelationRow × Nat) (w : Window) :
    processWindow (fun _ => none) idGen cluster st w = st := by
  have h7 : ¬ ((analyzeEventCorrelationWithAI none).confidence > 7/10) := by
    norm_num [analyzeEventCorrelationWithAI]
  obtain ⟨s, t, evs⟩ := w
  cases evs with
  | nil => rfl
  | cons e0 rest => simp [processWindow, h7]

/-- Folding a failing-oracle window pass over any window list is the
identity on the state. -/
theorem foldl_processWindow_none (idGen : Nat → String) (cluster : String)
    (ws : List Window) : ∀ st : List CorrelationRow × Nat,
    ws.foldl (processWindow (fun _ => none) idGen cluster) st = st := by
  induction ws with
  | nil => intro st; rfl
  | cons w ws ih =>
    intro st
    rw [List.foldl_cons, processWindow_oracle_none, ih]

/-- A failing suggestion oracle yields the empty suggestion list, so the
alert fold never changes the store or the created count. -/
theorem suggestionFold_none (l : List SmartAlertRow) :
    ∀ st : SuggestionPassResult,
    ((l.foldl (processAlert (fun _ => none)) st).store = st.store) ∧
      ((l.foldl (processAlert (fun _ => none)) st).created = st.created) := by
  induction l with
  | nil => intro st; exact ⟨rfl, rfl⟩
  | cons a l ih =>
    intro st
    rw [List.foldl_cons]
    have hstep : ((processAlert (fun _ => none) st a).store = st.store) ∧
        ((processAlert (fun _ => none) st a).created = st.created) := by
      by_cases hx : (st.store.filter (fun s => s.alert_id == a.id)).length > 0
      · constructor <;> simp [processAlert, hx]
      · constructor <;> simp [processAlert, hx, generateSuggestionsWithAI]
    obtain ⟨h1, h2⟩ := ih (processAlert (fun _ => none) st a)
    exact ⟨h1.trans hstep.1, h2.trans hstep.2⟩

/-- C9: when every oracle call fails or returns unparsable output (modelled
as none), the caught error is scored as zero confidence, zero significance
and an empty suggestion list, so the correlation, trend and suggestion
passes persist nothing and return normally with zero counts. -/
theorem oracle_failure_persists_nothing :
    (∀ (idGen : Nat → String) (cluster : String) (events : List EventRow)
        (store : List CorrelationRow),
        performEventCorrelation (fun _ => none) idGen cluster events store = (store, 0)) ∧
      (∀ (now : Nat) (cluster : String) (podHealthData : List PodHealthRow)
        (trends : List PodRestartTrendRow),
        analyzePodRestartTrends (fun _ => none) now cluster podHealthData trends = (trends, 0)) ∧
      (∀ (alerts : List SmartAlertRow) (store : List SuggestionRow),
        ((generateIntelligentSuggestions (fun _ => none) alerts store).store = store) ∧
        ((generateIntelligentSuggestions (fun _ => none) alerts store).created = 0)) ∧
      analyzeEventCorrelationWithAI none =
        { confidence := 0, rootCause := "Analysis failed", type := "unknown" } ∧
      analyzePodTrendWithAI none =
        { significance := 0, direction := "stable", score := 0,
          analysis := "Analysis failed" } ∧
      generateSuggestionsWithAI none = [] := by
  refine ⟨?_, ?_, ?_, rfl, rfl, rfl⟩
  · intro idGen cluster events store
    unfold performEventCorrelation
    split
    · rfl
    · exact foldl_processWindow_none idGen cluster _ _
  · intro now cluster d t
    exact analyzePodRestartTrends_eq _ now cluster d t
  · intro alerts store
    simp only [generateIntelligentSuggestions]
    by_cases he : (alerts.filter (fun a => a.is_resolved == false)).isEmpty = true
    · constructor <;> rw [if_pos he]
    · constructor
      · rw [if_neg he]
        exact (suggestionFold_none _ _).1
      · rw [if_neg he]
        exact (suggestionFold_none _ _).2

/-- Rows inserted for one alert never match the filter of a different
alert id. -/
theorem filter_map_suggestionRowOf (id aid : Nat) (l : List SuggestionSpec)
    (h : (aid == id) = false) :
    (l.map (suggestionRowOf aid)).filter (fun s => s.alert_id == id) = [] := by
  induction l with
  | nil => rfl
  | cons s l ih => simp [List.map_cons, List.filter_cons, suggestionRowOf, h, ih]

/-- Folding the alert loop preserves the suggestion rows of any alert id
that already has rows, and never invokes the oracle for it. -/
theorem suggestionFold_preserves (oracle : SmartAlertRow → Option (List SuggestionSpec))
    (l : List SmartAlertRow) (id : Nat) :
    ∀ st : SuggestionPassResult, st.store.filter (fun s => s.alert_id == id) ≠ [] →
    (((l.foldl (processAlert oracle) st).store.filter (fun s => s.alert_id == id)) =
       st.store.filter (fun s => s.alert_id == id)) ∧
    (id ∈ (l.foldl (processAlert oracle) st).invoked → id ∈ st.invoked) := by
  induction l with
  | nil => intro st _; exact ⟨rfl, fun hm => hm⟩
  | cons a l ih =>
    intro st h
    rw [List.foldl_cons]
    by_cases hx : (st.store.filter (fun s => s.alert_id == a.id)).length > 0
    · have hstep : processAlert oracle st a = st := by
        simp [processAlert, hx]
      rw [hstep]
      exact ih st h
    · have hempty : st.store.filter (fun s => s.alert_id == a.id) = [] := by
        rw [← List.length_eq_zero]
        omega
      have haid : (a.id == id) = false := by
        by_contra hba
        have : a.id = id := by
          cases hb : (a.id == id) with
          | false => exact absurd hb hba
          | true => exact beq_iff_eq.mp hb
        rw [this] at hempty
        exact h hempty
      have hstore : (processAlert oracle st a).store =
          st.store ++ (generateSuggestionsWithAI (oracle a)).map (suggestionRowOf a.id) := by
        simp [processAlert, hx]
      have hinv : (processAlert oracle st a).invoked = st.invoked ++ [a.id] := by
        simp [processAlert, hx]
      have hfilter : (processAlert oracle st a).store.filter (fun s => s.alert_id == id) =
          st.store.filter (fun s => s.alert_id == id) := by
        rw [hstore, List.filter_append, filter_map_suggestionRowOf id a.id _ haid,
          List.append_nil]
      have h1 : (processAlert oracle st a).store.filter (fun s => s.alert_id == id) ≠ [] := by
        rw [hfilter]; exact h
      obtain ⟨ihf, ihi⟩ := ih (processAlert oracle st a) h1
      refine ⟨ihf.trans hfilter, fun hm => ?_⟩
      have hmem := ihi hm
      rw [hinv] at hmem
      rcases List.mem_append.mp hmem with hmem1 | hmem2
      · exact hmem1
      · exfalso
        have : id = a.id := by simpa using hmem2
        rw [this] at haid
        simp at haid

/-- Every alert id the fold invokes the oracle for comes from the folded
alert list or was already recorded. -/
theorem suggestionFold_invoked_sub (oracle : SmartAlertRow → Option (List SuggestionSpec))
    (l : List SmartAlertRow) :
    ∀ st : SuggestionPassResult, ∀ id ∈ (l.foldl (processAlert oracle) st).invoked,
    id ∈ st.invoked ∨ id ∈ l.map (fun a => a.id) := by
  induction l with
  | nil => intro st id hm; exact Or.inl hm
  | cons a l ih =>
    intro st id hm
    rw [List.foldl_cons] at hm
    rcases ih (processAlert oracle st a) id hm with h1 | h2
    · by_cases hx : (st.store.filter (fun s => s.alert_id == a.id)).length > 0
      · rw [show processAlert oracle st a = st from by simp [processAlert, hx]] at h1
        exact Or.inl h1
      · have hinv : (processAlert oracle st a).invoked = st.invoked ++ [a.id] := by
          simp [processAlert, hx]
        rw [hinv] at h1
        rcases List.mem_append.mp h1 with hmem1 | hmem2
        · exact Or.inl hmem1
        · right
          have : id = a.id := by simpa using hmem2
          simp [this]
    · right
      simp [h2]

/-- C7: an unresolved smart alert that already has a suggestion row is
skipped by generateIntelligentSuggestions: the oracle is not invoked for it
and its suggestion rows are unchanged; and the oracle is only ever invoked
for ids of unresolved alerts. -/
theorem suggestions_skipped_when_existing
    (oracle : SmartAlertRow → Option (List SuggestionSpec))
    (alerts : List SmartAlertRow) (store : List SuggestionRow) (a : SmartAlertRow)
    (h : store.filter (fun s => s.alert_id == a.id) ≠ []) :
    ((generateIntelligentSuggestions oracle alerts store).store.filter
        (fun s => s.alert_id == a.id) = store.filter (fun s => s.alert_id == a.id)) ∧
      (a.id ∉ (generateIntelligentSuggestions oracle alerts store).invoked) ∧
      (∀ id ∈ (generateIntelligentSuggestions oracle alerts store).invoked,
        ∃ b ∈ alerts, b.id = id ∧ b.is_resolved = false) := by
  simp only [generateIntelligentSuggestions]
  by_cases he : (alerts.filter (fun x => x.is_resolved == false)).isEmpty = true
  · rw [if_pos he]
    refine ⟨rfl, by simp, by simp⟩
  · rw [if_neg he]
    obtain ⟨h1, h2⟩ := suggestionFold_preserves oracle
      (alerts.filter (fun x => x.is_resolved == false)) a.id
      { store := store, created := 0, invoked := [] } h
    refine ⟨h1, fun hm => by simpa using h2 hm, ?_⟩
    intro id hm
    rcases suggestionFold_invoked_sub oracle _ _ id hm with hin | hin
    · simp at hin
    · obtain ⟨b, hb, hbid⟩ := List.mem_map.mp hin
      obtain ⟨hbal, hbres⟩ := List.mem_filter.mp hb
      refine ⟨b, hbal, hbid, ?_⟩
      simpa using hbres

/-- C7 witness: with one unresolved alert that already has one suggestion
row, the pass leaves its rows unchanged and invokes nothing. -/
theorem suggestions_skipped_when_existing_witness :
    ((generateIntelligentSuggestions oracleSuggOne [alertC7] [suggRowC7]).store.filter
        (fun s => s.alert_id == alertC7.id) =
      ([suggRowC7] : List SuggestionRow).filter (fun s => s.alert_id == alertC7.id)) ∧
      (alertC7.id ∉ (generateIntelligentSuggestions oracleSuggOne [alertC7] [suggRowC7]).invoked) ∧
      (∀ id ∈ (generateIntelligentSuggestions oracleSuggOne [alertC7] [suggRowC7]).invoked,
        ∃ b ∈ [alertC7], b.id = id ∧ b.is_resolved = false) :=
  suggestions_skipped_when_existing oracleSuggOne [alertC7] [suggRowC7] alertC7
    (by simp [suggRowC7, alertC7])

/-- C8: a webhook survives the severity filter iff it is in the fetched
list and its predicate holds; with no matching preference the predicate is
true (default-allow), with a matching preference it holds iff the event
severity index is at least the threshold index in the
low < medium < high < critical scale; concretely, a threshold-high channel
receives critical and high but not medium or low, and a channel with no
preference receives all four severities. -/
theorem webhook_severity_filter :
    (∀ (webhooks : List SlackWebhook) (preferences : List NotificationPreference)
        (severity : String) (w : SlackWebhook),
        w ∈ enabledWebhooks webhooks preferences severity ↔
          w ∈ webhooks ∧ webhookPasses preferences severity w = true) ∧
      (∀ (preferences : List NotificationPreference) (severity : String)
        (w : SlackWebhook), findUserPref preferences w = none →
        webhookPasses preferences severity w = true) ∧
      (∀ (preferences : List NotificationPreference) (severity : String)
        (w : SlackWebhook) (p : NotificationPreference),
        findUserPref preferences w = some p →
        (webhookPasses preferences severity w = true ↔
          jsIndexOf severityLevels severity ≥
            jsIndexOf severityLevels p.severity_threshold)) ∧
      enabledWebhooks [whC8] [prefHighC8] "critical" = [whC8] ∧
      enabledWebhooks [whC8] [prefHighC8] "high" = [whC8] ∧
      enabledWebhooks [whC8] [prefHighC8] "medium" = [] ∧
      enabledWebhooks [whC8] [prefHighC8] "low" = [] ∧
      enabledWebhooks [whC8] [] "low" = [whC8] ∧
      enabledWebhooks [whC8] [] "medium" = [whC8] ∧
      enabledWebhooks [whC8] [] "high" = [whC8] ∧
      enabledWebhooks [whC8] [] "critical" = [whC8] := by
  refine ⟨?_, ?_, ?_, ?_, ?_, ?_, ?_, ?_, ?_, ?_, ?_⟩
  · intro webhooks preferences severity w
    simp [enabledWebhooks, List.mem_filter]
  · intro preferences severity w hp
    simp [webhookPasses, hp]
  · intro preferences severity w p hp
    simp [webhookPasses, hp]
  all_goals decide

/-- C8 witness: the default-allow rule applied with an empty preference
list, and the threshold rule applied to the high-threshold preference. -/
theorem webhook_severity_filter_witness :
    webhookPasses [] "low" whC8 = true ∧
      (webhookPasses [prefHighC8] "critical" whC8 = true ↔
        jsIndexOf severityLevels "critical" ≥
          jsIndexOf severityLevels prefHighC8.severity_threshold) :=
  ⟨webhook_severity_filter.2.1 [] "low" whC8 rfl,
   webhook_severity_filter.2.2.1 [prefHighC8] "critical" whC8 prefHighC8 rfl⟩

end KubeTuiAid
